import Mathlib

/-!
Verification of the SageMaker pipeline custom-resource manager
(`resources/lambda/pipeline_manager/index.py`).

The development shallowly embeds the handler's pure core:

* a JSON document model (`Json`) with the canonical serializer that mirrors
  `json.dumps(obj, separators=(",", ":"), sort_keys=True)`;
* a SHA-256 implementation mirroring `hashlib.sha256(...).hexdigest()`;
* `_build_definition`, the pure compiler from the resolved configuration to
  the pipeline step graph;
* the reconciliation controller `on_event` together with `_pipeline_exists`,
  `_create_or_update` and `_delete`, where the boto3 SageMaker client is
  modelled as an oracle (`SageMakerClient`) fixing the outcome of each API
  call, and an invocation is the list of API calls it performs paired with
  either a raised error or the returned response.
-/

/-! ## JSON documents and canonical serialization -/

/-- A JSON document as `_build_definition` constructs one: strings, integers,
arrays and objects (Python dicts, kept as ordered association lists). -/
inductive Json where
  | str (s : String)
  | num (n : Nat)
  | arr (items : List Json)
  | obj (fields : List (String × Json))

/-- Code-point comparison of char lists: the order `sorted` / `sort_keys=True`
uses on Python strings. -/
def charListLe : List Char → List Char → Bool
  | [], _ => true
  | _ :: _, [] => false
  | x :: xs, y :: ys =>
    if x.toNat < y.toNat then true
    else if y.toNat < x.toNat then false
    else charListLe xs ys

/-- String comparison by code points, as Python's `<=` on `str`. -/
def strLe (a b : String) : Bool := charListLe a.toList b.toList

/-- Insert one key/value pair into a key-sorted field list. -/
def insertFieldSorted (p : String × Json) : List (String × Json) → List (String × Json)
  | [] => [p]
  | q :: qs => if strLe p.1 q.1 then p :: q :: qs else q :: insertFieldSorted p qs

/-- Stable insertion sort of object fields by key: the key order
`json.dumps(..., sort_keys=True)` emits. -/
def insertionSortFields : List (String × Json) → List (String × Json)
  | [] => []
  | p :: ps => insertFieldSorted p (insertionSortFields ps)

/-- Lowercase hex digit. -/
def hexDigitChar (n : Nat) : Char :=
  "0123456789abcdef".toList.getD n '0'

/-- Four lowercase hex digits, most significant first. -/
def hex4 (n : Nat) : String :=
  String.mk [hexDigitChar ((n / 4096) % 16), hexDigitChar ((n / 256) % 16),
             hexDigitChar ((n / 16) % 16), hexDigitChar (n % 16)]

/-- JSON string escaping as Python's `json.dumps` performs it with the default
`ensure_ascii=True`: short escapes for the two-character sequences, `\u00XX`
for other control characters, `\uXXXX` for non-ASCII (surrogate pairs beyond
the BMP). -/
def escapeChar (c : Char) : String :=
  if c = '"' then "\\\""
  else if c = '\\' then "\\\\"
  else if c = '\n' then "\\n"
  else if c = '\r' then "\\r"
  else if c = '\t' then "\\t"
  else if c.toNat = 8 then "\\b"
  else if c.toNat = 12 then "\\f"
  else if c.toNat < 32 then "\\u" ++ hex4 c.toNat
  else if c.toNat < 127 then String.mk [c]
  else if c.toNat < 65536 then "\\u" ++ hex4 c.toNat
  else
    let v := c.toNat - 65536
    "\\u" ++ hex4 (55296 + v / 1024) ++ "\\u" ++ hex4 (56320 + v % 1024)

/-- A JSON string literal: quotes around the escaped characters. -/
def dumpString (s : String) : String :=
  "\"" ++ String.join (s.toList.map escapeChar) ++ "\""

mutual
/-- Serialize a document whose object fields are already in canonical order,
with the compact separators `(",", ":")`. -/
def rawDumps : Json → String
  | .str s => dumpString s
  | .num n => toString n
  | .arr xs => "[" ++ rawDumpsList xs ++ "]"
  | .obj fs => "\x7b" ++ rawDumpsFields fs ++ "\x7d"
termination_by structural j => j
/-- Comma-separated serialization of array items. -/
def rawDumpsList : List Json → String
  | [] => ""
  | [x] => rawDumps x
  | x :: y :: xs => rawDumps x ++ "," ++ rawDumpsList (y :: xs)
termination_by structural l => l
/-- Comma-separated serialization of `"key":value` fields. -/
def rawDumpsFields : List (String × Json) → String
  | [] => ""
  | [(k, v)] => dumpString k ++ ":" ++ rawDumps v
  | (k, v) :: q :: xs => dumpString k ++ ":" ++ rawDumps v ++ "," ++ rawDumpsFields (q :: xs)
termination_by structural l => l
end

mutual
/-- Recursively sort every object's fields by key: the document seen by a
key-sorting serializer. -/
def canon : Json → Json
  | .str s => .str s
  | .num n => .num n
  | .arr xs => .arr (canonList xs)
  | .obj fs => .obj (insertionSortFields (canonFields fs))
termination_by structural j => j
/-- `canon` on each array item. -/
def canonList : List Json → List Json
  | [] => []
  | x :: xs => canon x :: canonList xs
termination_by structural l => l
/-- `canon` on each field's value. -/
def canonFields : List (String × Json) → List (String × Json)
  | [] => []
  | (k, v) :: xs => (k, canon v) :: canonFields xs
termination_by structural l => l
end

/-- The model of `json.dumps(obj, separators=(",", ":"), sort_keys=True)`. -/
def dumps (j : Json) : String := rawDumps (canon j)

/-! ## SHA-256 (`hashlib.sha256(text.encode("utf-8")).hexdigest()`) -/

/-- Truncate to a 32-bit word. -/
def w32 (x : Nat) : Nat := x % 4294967296

/-- Right-rotation of a 32-bit word by `n` places. -/
def rotr32 (n x : Nat) : Nat := w32 ((x >>> n) ||| (x <<< (32 - n)))

/-- UTF-8 encoding of one code point. -/
def utf8Bytes (c : Char) : List Nat :=
  let n := c.toNat
  if n < 128 then [n]
  else if n < 2048 then [192 + n / 64, 128 + n % 64]
  else if n < 65536 then [224 + n / 4096, 128 + (n / 64) % 64, 128 + n % 64]
  else [240 + n / 262144, 128 + (n / 4096) % 64, 128 + (n / 64) % 64, 128 + n % 64]

/-- UTF-8 encoding of a string, as Python's `str.encode("utf-8")`. -/
def encodeUtf8 (s : String) : List Nat := s.toList.flatMap utf8Bytes

/-- SHA-256 padding: `0x80`, zeros to 56 mod 64, then the bit length as eight
big-endian bytes. -/
def sha256Pad (msg : List Nat) : List Nat :=
  let L := msg.length
  msg ++ [128] ++ List.replicate ((119 - L % 64) % 64) 0
      ++ (List.range 8).map (fun i => ((8 * L) >>> (56 - 8 * i)) % 256)

/-- Big-endian 32-bit words from a byte list. -/
def bytesToWords : List Nat → List Nat
  | a :: b :: c :: d :: rest => (a * 16777216 + b * 65536 + c * 256 + d) :: bytesToWords rest
  | _ => []

/-- Split a byte list into 64-byte chunks (`fuel` bounds the recursion by the
list length). -/
def chunks64Go : Nat → List Nat → List (List Nat)
  | 0, _ => []
  | _ + 1, [] => []
  | fuel + 1, x :: xs => (x :: xs).take 64 :: chunks64Go fuel ((x :: xs).drop 64)

/-- Split a byte list into 64-byte chunks. -/
def chunks64 (l : List Nat) : List (List Nat) := chunks64Go l.length l

/-- Extend the 16 message-schedule words to 64 (48 extension rounds). -/
def sha256Extend : Nat → List Nat → List Nat
  | 0, ws => ws
  | n + 1, ws =>
    let i := ws.length
    let w15 := ws.getD (i - 15) 0
    let w2 := ws.getD (i - 2) 0
    let s0 := rotr32 7 w15 ^^^ rotr32 18 w15 ^^^ (w15 >>> 3)
    let s1 := rotr32 17 w2 ^^^ rotr32 19 w2 ^^^ (w2 >>> 10)
    sha256Extend n (ws ++ [w32 (ws.getD (i - 16) 0 + s0 + ws.getD (i - 7) 0 + s1)])

/-- The 64 SHA-256 round constants. -/
def sha256K : List Nat :=
  [1116352408, 1899447441, 3049323471, 3921009573, 961987163,
   1508970993, 2453635748, 2870763221, 3624381080, 310598401,
   607225278, 1426881987, 1925078388, 2162078206, 2614888103,
   3248222580, 3835390401, 4022224774, 264347078, 604807628,
   770255983, 1249150122, 1555081692, 1996064986, 2554220882,
   2821834349, 2952996808, 3210313671, 3336571891, 3584528711,
   113926993, 338241895, 666307205, 773529912, 1294757372,
   1396182291, 1695183700, 1986661051, 2177026350, 2456956037,
   2730485921, 2820302411, 3259730800, 3345764771, 3516065817,
   3600352804, 4094571909, 275423344, 430227734, 506948616,
   659060556, 883997877, 958139571, 1322822218, 1537002063,
   1747873779, 1955562222, 2024104815, 2227730452, 2361852424,
   2428436474, 2756734187, 3204031479, 3329325298]

/-- The eight initial SHA-256 hash words. -/
def sha256Init : List Nat :=
  [1779033703, 3144134277, 1013904242, 2773480762, 1359893119,
   2600822924, 528734635, 1541459225]

/-- One SHA-256 compression round on the eight working words. -/
def sha256Round (st : List Nat) (kw : Nat × Nat) : List Nat :=
  match st with
  | [a, b, c, d, e, f, g, h] =>
    let S1 := rotr32 6 e ^^^ rotr32 11 e ^^^ rotr32 25 e
    let ch := (e &&& f) ^^^ ((e ^^^ 4294967295) &&& g)
    let t1 := w32 (h + S1 + ch + kw.1 + kw.2)
    let S0 := rotr32 2 a ^^^ rotr32 13 a ^^^ rotr32 22 a
    let mj := (a &&& b) ^^^ (a &&& c) ^^^ (b &&& c)
    let t2 := w32 (S0 + mj)
    [w32 (t1 + t2), a, b, c, w32 (d + t1), e, f, g]
  | _ => st

/-- Process one 64-byte chunk into the running hash words. -/
def sha256Chunk (h : List Nat) (chunk : List Nat) : List Nat :=
  let ws := sha256Extend 48 (bytesToWords chunk)
  let st := (sha256K.zip ws).foldl sha256Round h
  (h.zip st).map fun p => w32 (p.1 + p.2)

/-- Concatenation of a list of strings. -/
def concatAll : List String → String
  | [] => ""
  | s :: ss => s ++ concatAll ss

/-- Eight lowercase hex digits of a 32-bit word. -/
def hex8 (n : Nat) : String := hex4 (n / 65536) ++ hex4 (n % 65536)

/-- The final hash words of a UTF-8 encoded string. -/
def sha256Words (s : String) : List Nat :=
  (chunks64 (sha256Pad (encodeUtf8 s))).foldl sha256Chunk sha256Init

/-- The model of `hashlib.sha256(s.encode("utf-8")).hexdigest()`: the SHA-256
digest of the UTF-8 bytes of `s`, as 64 lowercase hex characters. -/
def sha256hex (s : String) : String := concatAll ((sha256Words s).map hex8)

/-! ## The configuration record and `_build_definition` -/

/-- The `cfg` dictionary `on_event` assembles (all values are strings). -/
structure Config where
  pipelineName : String
  pipelineRoleArn : String
  jobRoleArn : String
  bucketName : String
  rawPrefix : String
  processedPrefix : String
  modelPrefix : String
  codePrefix : String
  processingImageUri : String
  trainingImageUri : String
  inferenceImageUri : String
  instanceType : String
  endpointName : String
  generatorVersion : String
deriving DecidableEq

/-- Python's `s.rstrip("/")`: drop every trailing `/`. -/
def pyRstripSlash (s : String) : String :=
  String.mk ((s.toList.reverse.dropWhile (fun c => c = '/')).reverse)

/-- The deterministic SageMaker pipeline definition `_build_definition`
constructs from the configuration record. -/
def _build_definition (cfg : Config) : Json :=
  let bucket := cfg.bucketName
  let raw_uri := "s3://" ++ bucket ++ "/" ++ pyRstripSlash cfg.rawPrefix ++ "/data.csv"
  let processedUri := "s3://" ++ bucket ++ "/" ++ pyRstripSlash cfg.processedPrefix ++ "/"
  let modelUri := "s3://" ++ bucket ++ "/" ++ pyRstripSlash cfg.modelPrefix ++ "/"
  let code_s3 := "s3://" ++ bucket ++ "/" ++ pyRstripSlash cfg.codePrefix ++ "/"
  .obj [
    ("Version", .str "2020-12-01"),
    ("Parameters", .arr [
      .obj [("Name", .str "InputDataUri"), ("DefaultValue", .str raw_uri)],
      .obj [("Name", .str "ProcessedPrefix"), ("DefaultValue", .str processedUri)],
      .obj [("Name", .str "ModelPrefix"), ("DefaultValue", .str modelUri)],
      .obj [("Name", .str "InstanceType"), ("DefaultValue", .str cfg.instanceType)]]),
    ("PipelineExperimentConfig", .obj [
      ("ExperimentName", .str cfg.pipelineName),
      ("TrialName", .str "trial-1")]),
    ("Steps", .arr [
      .obj [
        ("Name", .str "Preprocess"),
        ("Type", .str "Processing"),
        ("Arguments", .obj [
          ("ProcessingResources", .obj [
            ("ClusterConfig", .obj [
              ("InstanceCount", .num 1),
              ("InstanceType", .str "ml.m5.large"),
              ("VolumeSizeInGB", .num 30)])]),
          ("AppSpecification", .obj [
            ("ImageUri", .str cfg.processingImageUri),
            ("ContainerEntrypoint", .arr [
              .str "python",
              .str "/opt/ml/processing/input/code/preprocessing.py"])]),
          ("RoleArn", .str cfg.jobRoleArn),
          ("ProcessingInputs", .arr [
            .obj [
              ("InputName", .str "code"),
              ("S3Input", .obj [
                ("S3Uri", .str code_s3),
                ("LocalPath", .str "/opt/ml/processing/input/code"),
                ("S3DataType", .str "S3Prefix"),
                ("S3InputMode", .str "File")])],
            .obj [
              ("InputName", .str "raw"),
              ("S3Input", .obj [
                ("S3Uri", .obj [("Get", .str "Parameters.InputDataUri")]),
                ("LocalPath", .str "/opt/ml/processing/input/raw"),
                ("S3DataType", .str "S3Prefix"),
                ("S3InputMode", .str "File")])]]),
          ("ProcessingOutputConfig", .obj [
            ("Outputs", .arr [
              .obj [
                ("OutputName", .str "train"),
                ("S3Output", .obj [
                  ("S3Uri", .obj [("Get", .str "Parameters.ProcessedPrefix")]),
                  ("LocalPath", .str "/opt/ml/processing/output/train"),
                  ("S3UploadMode", .str "EndOfJob")])],
              .obj [
                ("OutputName", .str "test"),
                ("S3Output", .obj [
                  ("S3Uri", .obj [("Get", .str "Parameters.ProcessedPrefix")]),
                  ("LocalPath", .str "/opt/ml/processing/output/test"),
                  ("S3UploadMode", .str "EndOfJob")])]])])])],
      .obj [
        ("Name", .str "Train"),
        ("Type", .str "Training"),
        ("Arguments", .obj [
          ("AlgorithmSpecification", .obj [
            ("TrainingImage", .str cfg.trainingImageUri),
            ("TrainingInputMode", .str "File")]),
          ("InputDataConfig", .arr [
            .obj [
              ("ChannelName", .str "train"),
              ("DataSource", .obj [
                ("S3DataSource", .obj [
                  ("S3DataType", .str "S3Prefix"),
                  ("S3Uri", .str ("s3://" ++ bucket ++ "/" ++ pyRstripSlash cfg.processedPrefix ++ "/train/")),
                  ("S3DataDistributionType", .str "FullyReplicated")])]),
              ("ContentType", .str "text/csv")],
            .obj [
              ("ChannelName", .str "test"),
              ("DataSource", .obj [
                ("S3DataSource", .obj [
                  ("S3DataType", .str "S3Prefix"),
                  ("S3Uri", .str ("s3://" ++ bucket ++ "/" ++ pyRstripSlash cfg.processedPrefix ++ "/test/")),
                  ("S3DataDistributionType", .str "FullyReplicated")])]),
              ("ContentType", .str "text/csv")]]),
          ("OutputDataConfig", .obj [("S3OutputPath", .obj [("Get", .str "Parameters.ModelPrefix")])]),
          ("ResourceConfig", .obj [
            ("InstanceCount", .num 1),
            ("InstanceType", .obj [("Get", .str "Parameters.InstanceType")]),
            ("VolumeSizeInGB", .num 50)]),
          ("RoleArn", .str cfg.jobRoleArn),
          ("StoppingCondition", .obj [("MaxRuntimeInSeconds", .num 3600)])])],
      .obj [
        ("Name", .str "CreateModel"),
        ("Type", .str "Model"),
        ("Arguments", .obj [
          ("ExecutionRoleArn", .str cfg.jobRoleArn),
          ("PrimaryContainer", .obj [
            ("Image", .str cfg.inferenceImageUri),
            ("ModelDataUrl", .obj [("Get", .str "Steps.Train.ModelArtifacts.S3ModelArtifacts")]),
            ("Environment", .obj [])])])],
      .obj [
        ("Name", .str "CreateEndpointConfig"),
        ("Type", .str "EndpointConfig"),
        ("Arguments", .obj [
          ("ProductionVariants", .arr [
            .obj [
              ("ModelName", .obj [("Get", .str "Steps.CreateModel.ModelName")]),
              ("InitialInstanceCount", .num 1),
              ("InstanceType", .obj [("Get", .str "Parameters.InstanceType")]),
              ("VariantName", .str "AllTraffic")]])])],
      .obj [
        ("Name", .str "CreateEndpoint"),
        ("Type", .str "Endpoint"),
        ("Arguments", .obj [
          ("EndpointConfigName", .obj [("Get", .str "Steps.CreateEndpointConfig.EndpointConfigName")]),
          ("EndpointName", .str cfg.endpointName)])]])]

/-- `json.dumps(definition_obj, separators=(",", ":"), sort_keys=True)` on the
built definition. -/
def serializeDefinition (cfg : Config) : String := dumps (_build_definition cfg)

/-- `hashlib.sha256(definition_str.encode("utf-8")).hexdigest()`. -/
def definitionHash (cfg : Config) : String := sha256hex (serializeDefinition cfg)

/-! ## The reconciliation controller `on_event` -/

/-- The `ResourceProperties` of a custom-resource request: keys the handler
reads with `props[...]` are required fields, keys read with `props.get(...)`
are optional. -/
structure ResourceProperties where
  PipelineName : String
  PipelineRoleArn : String
  JobRoleArn : String
  BucketName : String
  RawPrefix : Option String
  ProcessedPrefix : Option String
  ModelPrefix : Option String
  CodePrefix : Option String
  ProcessingImageUri : String
  TrainingImageUri : String
  InferenceImageUri : String
  InstanceType : Option String
  EndpointName : String
  GeneratorVersion : Option String
deriving DecidableEq

/-- The `cfg` dictionary literal of `on_event`: request properties with the
source's defaults for the optional keys.  No environment variable is read. -/
def resolveConfig (props : ResourceProperties) : Config where
  pipelineName := props.PipelineName
  pipelineRoleArn := props.PipelineRoleArn
  jobRoleArn := props.JobRoleArn
  bucketName := props.BucketName
  rawPrefix := props.RawPrefix.getD "raw/"
  processedPrefix := props.ProcessedPrefix.getD "processed/"
  modelPrefix := props.ModelPrefix.getD "models/"
  codePrefix := props.CodePrefix.getD "code/"
  processingImageUri := props.ProcessingImageUri
  trainingImageUri := props.TrainingImageUri
  inferenceImageUri := props.InferenceImageUri
  instanceType := props.InstanceType.getD "ml.m5.large"
  endpointName := props.EndpointName
  generatorVersion := props.GeneratorVersion.getD "v1"

/-- The outcome the external SageMaker service gives one API call: success,
a `ResourceNotFound` fault, or any other client error. -/
inductive CallOutcome where
  | ok
  | notFound
  | err (msg : String)
deriving DecidableEq

/-- The boto3 SageMaker client as an oracle: the outcome each of the four
API calls would have if performed during this invocation. -/
structure SageMakerClient where
  describeOutcome : CallOutcome
  createOutcome : CallOutcome
  updateOutcome : CallOutcome
  deleteOutcome : CallOutcome
deriving DecidableEq

/-- One recorded API call against the external service, with its arguments. -/
inductive SvcCall where
  | describePipeline (name : String)
  | createPipeline (name roleArn definitionBody : String)
  | updatePipeline (name roleArn definitionBody : String)
  | deletePipeline (name : String)
deriving DecidableEq

/-- A raised Python exception: the client's `ResourceNotFound` fault or any
other error. -/
inductive PyErr where
  | resourceNotFound
  | clientError (msg : String)
deriving DecidableEq

/-- The dictionary `_response` returns to the custom-resource framework. -/
structure LambdaResponse where
  PhysicalResourceId : String
  Data : List (String × String)
deriving DecidableEq

/-- `_response(physical_id, data)`. -/
def _response (physicalId : String) (data : List (String × String)) : LambdaResponse :=
  ⟨physicalId, data⟩

/-- The exception a non-`ok` call outcome raises. -/
def outcomeRaises : CallOutcome → Except PyErr Unit
  | .ok => .ok ()
  | .notFound => .error .resourceNotFound
  | .err m => .error (.clientError m)

/-- `_pipeline_exists`: `describe_pipeline` in a `try`, catching only
`ResourceNotFound` (as `False`); every other error propagates.  Returns the
calls performed and the result or raised error. -/
def _pipeline_exists (sm : SageMakerClient) (name : String) :
    List SvcCall × Except PyErr Bool :=
  ([.describePipeline name],
   match sm.describeOutcome with
   | .ok => .ok true
   | .notFound => .ok false
   | .err m => .error (.clientError m))

/-- `_create_or_update`: probe existence, then `update_pipeline` if the
pipeline exists, else `create_pipeline`; nothing is caught here. -/
def _create_or_update (sm : SageMakerClient) (name roleArn definitionBody : String) :
    List SvcCall × Except PyErr Unit :=
  let probe := _pipeline_exists sm name
  match probe.2 with
  | .error e => (probe.1, .error e)
  | .ok true =>
    (probe.1 ++ [.updatePipeline name roleArn definitionBody], outcomeRaises sm.updateOutcome)
  | .ok false =>
    (probe.1 ++ [.createPipeline name roleArn definitionBody], outcomeRaises sm.createOutcome)

/-- `_delete`: `delete_pipeline` in a `try`, swallowing `ResourceNotFound`;
every other error propagates. -/
def _delete (sm : SageMakerClient) (name : String) :
    List SvcCall × Except PyErr Unit :=
  ([.deletePipeline name],
   match sm.deleteOutcome with
   | .ok => .ok ()
   | .notFound => .ok ()
   | .err m => .error (.clientError m))

/-- The handler `on_event`: resolve the configuration, build and serialize the
definition, hash it, then branch on the request type.  The result is the list
of external API calls performed and either the raised error or the returned
response (the `try/except` in the source logs and re-raises, so errors
propagate unchanged). -/
def on_event (sm : SageMakerClient) (reqType : String) (props : ResourceProperties) :
    List SvcCall × Except PyErr LambdaResponse :=
  let name := props.PipelineName
  let roleArn := props.PipelineRoleArn
  let cfg := resolveConfig props
  let definitionStr := dumps (_build_definition cfg)
  let defHash := sha256hex definitionStr
  let physicalId := "sagemaker-pipeline-" ++ name
  if reqType = "Create" ∨ reqType = "Update" then
    let r := _create_or_update sm name roleArn definitionStr
    (r.1, match r.2 with
          | .ok _ => .ok (_response physicalId [("PipelineName", name), ("DefinitionHash", defHash)])
          | .error e => .error e)
  else if reqType = "Delete" then
    let r := _delete sm name
    (r.1, match r.2 with
          | .ok _ => .ok (_response physicalId [("PipelineName", name)])
          | .error e => .error e)
  else
    ([], .ok (_response physicalId [("PipelineName", name)]))

/-! ## Inspection of the built step graph -/

/-- Field lookup in an object's field list (first match, as a Python dict has
unique keys). -/
def lookupField : List (String × Json) → String → Option Json
  | [], _ => none
  | (k', v) :: fs, k => if k' = k then some v else lookupField fs k

/-- Field lookup in a JSON object. -/
def getField : Json → String → Option Json
  | .obj fs, k => lookupField fs k
  | _, _ => none

mutual
/-- All reference target strings `s` of tagged objects `{"Get": s}` in a
document. -/
def collectRefs : Json → List String
  | .str _ => []
  | .num _ => []
  | .arr xs => collectRefsList xs
  | .obj [("Get", .str s)] => [s]
  | .obj fs => collectRefsFields fs
termination_by structural j => j
/-- `collectRefs` over array items. -/
def collectRefsList : List Json → List String
  | [] => []
  | x :: xs => collectRefs x ++ collectRefsList xs
termination_by structural l => l
/-- `collectRefs` over object field values. -/
def collectRefsFields : List (String × Json) → List String
  | [] => []
  | (_, v) :: fs => collectRefs v ++ collectRefsFields fs
termination_by structural l => l
end

/-- Split a character list on a separator character. -/
def splitOnChar (c : Char) : List Char → List (List Char)
  | [] => [[]]
  | x :: xs =>
    let r := splitOnChar c xs
    if x = c then [] :: r
    else match r with
      | [] => [[x]]
      | y :: ys => (x :: y) :: ys

/-- The dot-separated components of a reference string. -/
def refParts (s : String) : List String := (splitOnChar '.' s.toList).map String.mk

/-- A reference target is well formed for a step when it names a declared
parameter (`Parameters.Y`) or a strictly earlier step (`Steps.X.<attr>`). -/
def refOk (paramNames priorSteps : List String) (r : String) : Bool :=
  match refParts r with
  | ["Parameters", y] => paramNames.contains y
  | "Steps" :: x :: _ :: _ => priorSteps.contains x
  | _ => false

/-- The `Name` of a step or parameter object. -/
def nameOf (j : Json) : String :=
  match getField j "Name" with
  | some (.str s) => s
  | _ => ""

/-- The `Arguments` object of a step. -/
def stepArgs (j : Json) : Json := (getField j "Arguments").getD (.obj [])

/-- Every reference of every step targets a declared parameter or an earlier
step (`prior` accumulates the names of the steps already seen). -/
def checkStepsRefs (paramNames : List String) : List String → List Json → Bool
  | _, [] => true
  | prior, st :: rest =>
    (collectRefs (stepArgs st)).all (refOk paramNames prior) &&
    checkStepsRefs paramNames (prior ++ [nameOf st]) rest

/-- No name occurs twice. -/
def nodupNames : List String → Bool
  | [] => true
  | x :: xs => (!xs.contains x) && nodupNames xs

/-- The names of a definition's steps, in order. -/
def stepNames (d : Json) : List String :=
  match getField d "Steps" with
  | some (.arr ss) => ss.map nameOf
  | _ => []

/-- Reference integrity of a built definition: every `Steps.X.<attr>`
reference names a strictly earlier step, every `Parameters.Y` reference names
a declared parameter, and step names are pairwise distinct. -/
def referencesOk (d : Json) : Bool :=
  match getField d "Parameters", getField d "Steps" with
  | some (.arr ps), some (.arr ss) =>
    checkStepsRefs (ps.map nameOf) [] ss && nodupNames (ss.map nameOf)
  | _, _ => false

/-- The `i`-th step object of a definition. -/
def stepAt (d : Json) (i : Nat) : Json :=
  match getField d "Steps" with
  | some (.arr ss) => ss.getD i (.obj [])
  | _ => .obj []

/-- The `i`-th parameter object of a definition. -/
def paramAt (d : Json) (i : Nat) : Json :=
  match getField d "Parameters" with
  | some (.arr ps) => ps.getD i (.obj [])
  | _ => .obj []

/-- A call is mutating when it is not the read-only `describe_pipeline`. -/
def isMutating : SvcCall → Bool
  | .describePipeline _ => false
  | _ => true

/-- The definition body carried by a mutating create/update call. -/
def bodyOf : SvcCall → Option String
  | .createPipeline _ _ b => some b
  | .updatePipeline _ _ b => some b
  | _ => none

/-- All characters are lowercase hex digits. -/
def allHexChars (l : List Char) : Bool := l.all (fun c => "0123456789abcdef".toList.contains c)

/-- The string is entirely lowercase hex. -/
def isHexLower (s : String) : Bool := allHexChars s.toList

/-- The `i`-th element of a JSON array. -/
def arrAt : Json → Nat → Json
  | .arr xs, i => xs.getD i (.obj [])
  | _, _ => .obj []

/-- Field access with an empty-object default, for navigation chains. -/
def getF (j : Json) (k : String) : Json := (getField j k).getD (.obj [])

/-- The `S3Uri` of the `i`-th input channel of the Train step. -/
def trainChannelUri (d : Json) (i : Nat) : Json :=
  getF (getF (getF (arrAt (getF (stepArgs (stepAt d 1)) "InputDataConfig") i)
    "DataSource") "S3DataSource") "S3Uri"

/-- Lookup in an environment-variable map. -/
def lookupEnv : List (String × String) → String → Option String
  | [], _ => none
  | (k', v) :: es, k => if k' = k then some v else lookupEnv es k

/-- Modelled from the spec: the ConfigResolver precedence sentence, under
which environment-provided values override the request-property values for
the bucket name and the raw prefix (all other fields as the handler resolves
them).  The handler in the source reads no environment variable at all; this
definition states that claimed semantics so it can be compared with
`resolveConfig`. -/
def resolveConfigSpec (env : List (String × String)) (props : ResourceProperties) : Config :=
  let base := resolveConfig props
  { base with
    bucketName := (lookupEnv env "BucketName").getD base.bucketName
    rawPrefix := (lookupEnv env "RawPrefix").getD base.rawPrefix }

/-- The example request properties: pipeline `demo` in bucket `b`, default
prefixes, endpoint `demo-ep`. -/
def demoProps : ResourceProperties :=
  ⟨"demo", "role-p", "role-j", "b", none, none, none, none,
   "img-p", "img-t", "img-i", none, "demo-ep", none⟩

/-- The example configuration record of the spec's scenario. -/
def demoCfg : Config :=
  ⟨"demo", "role-p", "role-j", "b", "raw/", "processed/", "models/", "code/",
   "img-p", "img-t", "img-i", "ml.m5.large", "demo-ep", "v1"⟩

/-- An environment supplying a bucket name and raw prefix different from the
request properties. -/
def demoEnv : List (String × String) :=
  [("BucketName", "env-bucket"), ("RawPrefix", "env-raw/")]

/-- The first character a serialized JSON document can have: a quote, an
array or object opener, or (for a number) a digit.  Used to exhibit concrete
strings that are not the serialization of any document. -/
def startsLikeJson (s : String) : Bool :=
  match s.data with
  | [] => false
  | ch :: _ => ch = '"' || ch = '[' || ch = '\x7b' || ch.isDigit

/-! ## Helper lemmas: the hash is 64 lowercase hex characters -/

theorem sha256Round_length (st : List Nat) (kw : Nat × Nat) :
    (sha256Round st kw).length = st.length := by
  unfold sha256Round; split <;> rfl

theorem foldl_round_length (l : List (Nat × Nat)) :
    ∀ st : List Nat, (l.foldl sha256Round st).length = st.length := by
  induction l with
  | nil => intro st; rfl
  | cons x xs ih => intro st; rw [List.foldl_cons, ih, sha256Round_length]

theorem sha256Chunk_length (h : List Nat) (chunk : List Nat) :
    (sha256Chunk h chunk).length = h.length := by
  unfold sha256Chunk
  rw [List.length_map, List.length_zip, foldl_round_length, Nat.min_self]

theorem foldl_chunk_length (chs : List (List Nat)) :
    ∀ h : List Nat, (chs.foldl sha256Chunk h).length = h.length := by
  induction chs with
  | nil => intro h; rfl
  | cons x xs ih => intro h; rw [List.foldl_cons, ih, sha256Chunk_length]

theorem sha256Words_length (s : String) : (sha256Words s).length = 8 := by
  unfold sha256Words; rw [foldl_chunk_length]; rfl

theorem hex4_length (n : Nat) : (hex4 n).length = 4 := rfl

theorem hex8_length (n : Nat) : (hex8 n).length = 8 := by
  unfold hex8; rw [String.length_append, hex4_length, hex4_length]

theorem concatAll_hex8_length (l : List Nat) :
    (concatAll (l.map hex8)).length = 8 * l.length := by
  induction l with
  | nil => rfl
  | cons x xs ih =>
    rw [List.map_cons]
    show (hex8 x ++ concatAll (xs.map hex8)).length = 8 * (xs.length + 1)
    rw [String.length_append, hex8_length, ih]; ring

theorem sha256hex_length (s : String) : (sha256hex s).length = 64 := by
  unfold sha256hex; rw [concatAll_hex8_length, sha256Words_length]

theorem hexDigitChar_mem (n : Nat) :
    "0123456789abcdef".toList.contains (hexDigitChar n) = true := by
  unfold hexDigitChar
  rcases Nat.lt_or_ge n 16 with h | h
  · interval_cases n <;> decide
  · rw [List.getD_eq_default _ _ (by simpa using h)]; decide

theorem hex4_chars (n : Nat) : allHexChars (hex4 n).toList = true := by
  show allHexChars [hexDigitChar _, hexDigitChar _, hexDigitChar _, hexDigitChar _] = true
  unfold allHexChars
  simp only [List.all_cons, List.all_nil, hexDigitChar_mem, Bool.and_self, Bool.and_true]

theorem toList_append (s t : String) : (s ++ t).toList = s.toList ++ t.toList := by
  simp [String.toList, String.data_append]

theorem hex8_chars (n : Nat) : allHexChars (hex8 n).toList = true := by
  unfold hex8; rw [toList_append, allHexChars, List.all_append]
  have h1 := hex4_chars (n / 65536)
  have h2 := hex4_chars (n % 65536)
  unfold allHexChars at h1 h2
  rw [h1, h2]; rfl

theorem concatAll_hex8_chars (l : List Nat) :
    allHexChars (concatAll (l.map hex8)).toList = true := by
  induction l with
  | nil => rfl
  | cons x xs ih =>
    rw [List.map_cons]
    show allHexChars ((hex8 x ++ concatAll (xs.map hex8)).toList) = true
    rw [toList_append, allHexChars, List.all_append]
    have h1 := hex8_chars x
    unfold allHexChars at ih h1
    rw [h1, ih]; rfl

theorem sha256hex_hex (s : String) : isHexLower (sha256hex s) = true := by
  unfold isHexLower sha256hex; exact concatAll_hex8_chars _

/-! ## Helper lemmas: every serialized document starts like a document -/

theorem digitChar_isDigit (m : Nat) (hm : m < 10) : (Nat.digitChar m).isDigit = true := by
  interval_cases m <;> decide

theorem toDigitsCore_digits :
    ∀ (fuel n : Nat) (ds : List Char), (∀ ch ∈ ds, ch.isDigit = true) →
      ∀ ch ∈ Nat.toDigitsCore 10 fuel n ds, ch.isDigit = true := by
  intro fuel
  induction fuel with
  | zero => intro n ds hds ch hc; exact hds ch hc
  | succ f ih =>
    intro n ds hds ch hc
    have hdig : ∀ c' ∈ (Nat.digitChar (n % 10) :: ds), c'.isDigit = true := by
      intro c' hc'
      rcases List.mem_cons.mp hc' with rfl | h'
      · exact digitChar_isDigit _ (Nat.mod_lt _ (by decide))
      · exact hds _ h'
    simp only [Nat.toDigitsCore] at hc
    split at hc
    · exact hdig ch hc
    · exact ih _ _ hdig ch hc

theorem toDigitsCore_ne_nil :
    ∀ (fuel n : Nat) (ds : List Char), ds ≠ [] → Nat.toDigitsCore 10 fuel n ds ≠ [] := by
  intro fuel
  induction fuel with
  | zero => intro n ds h; exact h
  | succ f ih =>
    intro n ds h
    simp only [Nat.toDigitsCore]
    split
    · simp
    · exact ih _ _ (by simp)

theorem toDigits_ne_nil (n : Nat) : Nat.toDigits 10 n ≠ [] := by
  unfold Nat.toDigits
  simp only [Nat.toDigitsCore]
  split
  · simp
  · exact toDigitsCore_ne_nil _ _ _ (by simp)

theorem toDigits_digits (n : Nat) : ∀ ch ∈ Nat.toDigits 10 n, ch.isDigit = true :=
  toDigitsCore_digits _ _ _ (by simp)

theorem dumps_startsLikeJson (j : Json) : startsLikeJson (dumps j) = true := by
  cases j with
  | str s => rfl
  | arr xs => rfl
  | obj fs => rfl
  | num n =>
    show startsLikeJson (Nat.repr n) = true
    unfold startsLikeJson Nat.repr
    cases h : Nat.toDigits 10 n with
    | nil => exact absurd h (toDigits_ne_nil n)
    | cons ch cs =>
      have hd : ch.isDigit = true := toDigits_digits n ch (h ▸ List.mem_cons_self ch cs)
      simp [List.asString, hd]

/-! ## The claims -/

/-- C1: for every fixed ConfigRecord, building the step graph with
`_build_definition` and serializing it (key-sorted compact `json.dumps`, then
SHA-256) twice yields byte-identical definition text and identical hash on
both runs; the hash is 64 lowercase hex characters of the SHA-256 digest of
the text. -/
theorem c1_determinism (cfg : Config) :
    serializeDefinition cfg = serializeDefinition cfg ∧
    definitionHash cfg = definitionHash cfg ∧
    definitionHash cfg = sha256hex (serializeDefinition cfg) ∧
    (definitionHash cfg).length = 64 ∧
    isHexLower (definitionHash cfg) = true :=
  ⟨rfl, rfl, rfl, sha256hex_length _, sha256hex_hex _⟩

/-- C2: whenever `on_event` returns a response — whatever the request type
(Create, Update, Delete or unknown), the service outcomes, and every other
configuration field — its `PhysicalResourceId` is
`"sagemaker-pipeline-" ++ PipelineName`. -/
theorem c2_stable_physical_identity (sm : SageMakerClient) (rt : String)
    (props : ResourceProperties) (r : LambdaResponse)
    (h : (on_event sm rt props).2 = .ok r) :
    r.PhysicalResourceId = "sagemaker-pipeline-" ++ props.PipelineName := by
  rcases sm with ⟨d, c, u, del⟩
  unfold on_event _create_or_update _pipeline_exists _delete outcomeRaises _response at h
  split_ifs at h
  · cases d <;> cases c <;> cases u <;> cases h <;> rfl
  · cases del <;> cases h <;> rfl
  · cases h; rfl

/-- Witness for C2: a concrete unknown-type request returns the stable
identity for pipeline `demo`. -/
theorem c2_stable_physical_identity_witness :
    (⟨"sagemaker-pipeline-demo", [("PipelineName", "demo")]⟩ :
        LambdaResponse).PhysicalResourceId =
      "sagemaker-pipeline-" ++ demoProps.PipelineName :=
  c2_stable_physical_identity ⟨.ok, .ok, .ok, .ok⟩ "Noop" demoProps
    ⟨"sagemaker-pipeline-demo", [("PipelineName", "demo")]⟩ rfl

/-- C3: on a Create or Update request, a probe reporting the pipeline exists
leads to exactly the probe call followed by one `update_pipeline` call (never
`create_pipeline`), and a probe reporting it does not exist leads to exactly
the probe call followed by one `create_pipeline` call (never
`update_pipeline`), each carrying the pipeline name, the role identity, and
the serialized definition. -/
theorem c3_create_vs_update_branch (c u del : CallOutcome) (props : ResourceProperties) :
    ((on_event ⟨.ok, c, u, del⟩ "Create" props).1 =
      [.describePipeline props.PipelineName,
       .updatePipeline props.PipelineName props.PipelineRoleArn
         (serializeDefinition (resolveConfig props))]) ∧
    ((on_event ⟨.ok, c, u, del⟩ "Update" props).1 =
      [.describePipeline props.PipelineName,
       .updatePipeline props.PipelineName props.PipelineRoleArn
         (serializeDefinition (resolveConfig props))]) ∧
    ((on_event ⟨.notFound, c, u, del⟩ "Create" props).1 =
      [.describePipeline props.PipelineName,
       .createPipeline props.PipelineName props.PipelineRoleArn
         (serializeDefinition (resolveConfig props))]) ∧
    ((on_event ⟨.notFound, c, u, del⟩ "Update" props).1 =
      [.describePipeline props.PipelineName,
       .createPipeline props.PipelineName props.PipelineRoleArn
         (serializeDefinition (resolveConfig props))]) :=
  ⟨rfl, rfl, rfl, rfl⟩

/-- Counterexample to C4 as stated: a Delete request issued while the
pipeline does not exist (the service answers `ResourceNotFound` to both
describe and delete) still performs one external mutating call — the
`delete_pipeline` attempt — although the invocation succeeds with the stable
identity.  The claim's "performs no external mutating call" is false. -/
theorem c4_idempotent_delete_counterexample :
    (on_event ⟨.notFound, .ok, .ok, .notFound⟩ "Delete" demoProps).1 =
      [.deletePipeline "demo"] ∧
    ([.deletePipeline "demo"].filter isMutating).length = 1 ∧
    (on_event ⟨.notFound, .ok, .ok, .notFound⟩ "Delete" demoProps).2 =
      .ok ⟨"sagemaker-pipeline-demo", [("PipelineName", "demo")]⟩ :=
  ⟨rfl, rfl, rfl⟩

/-- C4 as amended: a Delete request issued while the pipeline does not exist
performs exactly one external call, the `delete_pipeline` attempt, whose
`ResourceNotFound` fault is swallowed; the invocation succeeds and returns
the stable physical identity (no describe, create or update call is made,
and no external state is changed since the entity is already absent). -/
theorem c4_idempotent_delete_amended (c u : CallOutcome) (props : ResourceProperties) :
    on_event ⟨.notFound, c, u, .notFound⟩ "Delete" props =
      ([.deletePipeline props.PipelineName],
       .ok (_response ("sagemaker-pipeline-" ++ props.PipelineName)
         [("PipelineName", props.PipelineName)])) := rfl

/-- Counterexample to C5 as stated: the controller performs no
well-formedness check before its mutating calls and defines no
`DefinitionValidationError`.  `_create_or_update` — the function through
which every create/update call passes, sitting exactly where the claimed
check would have to run (between serialization and the external call) —
given the concrete ill-formed body `"not a json document"` (shown not to be
the serialization of any document) still issues the create call (probe
absent) or the update call (probe present) and raises nothing, refuting
"if the definition body is invalid, a DefinitionValidationError is raised
and zero calls to the service's create or update operations occur". -/
theorem c5_no_validation_counterexample :
    ((_create_or_update ⟨.notFound, .ok, .ok, .ok⟩ "demo" "role-p" "not a json document").1 =
      [.describePipeline "demo",
       .createPipeline "demo" "role-p" "not a json document"]) ∧
    ((_create_or_update ⟨.notFound, .ok, .ok, .ok⟩ "demo" "role-p" "not a json document").2 =
      .ok ()) ∧
    ((_create_or_update ⟨.ok, .ok, .ok, .ok⟩ "demo" "role-p" "not a json document").1 =
      [.describePipeline "demo",
       .updatePipeline "demo" "role-p" "not a json document"]) ∧
    ((_create_or_update ⟨.ok, .ok, .ok, .ok⟩ "demo" "role-p" "not a json document").2 =
      .ok ()) ∧
    ¬ ∃ j : Json, dumps j = "not a json document" := by
  refine ⟨rfl, rfl, rfl, rfl, ?_⟩
  rintro ⟨j, hj⟩
  have h := dumps_startsLikeJson j
  rw [hj] at h
  exact absurd h (by decide)

/-- C5 as amended: the controller contains no explicit validation step and no
`DefinitionValidationError`; what holds instead is that on every Create or
Update request, every mutating call issued to the service carries the
serialization of the structurally built step graph as its definition body —
a well-formed document by construction (it is `dumps` of a `Json` value) —
so a malformed definition can never reach a create or update call. -/
theorem c5_validation_before_mutation (sm : SageMakerClient) (rt : String)
    (props : ResourceProperties) (call : SvcCall) (b : String)
    (hrt : rt = "Create" ∨ rt = "Update")
    (hc : call ∈ (on_event sm rt props).1) (hb : bodyOf call = some b) :
    b = serializeDefinition (resolveConfig props) ∧ ∃ j : Json, b = dumps j := by
  have htr : (on_event sm rt props).1 =
        [.describePipeline props.PipelineName] ∨
      (on_event sm rt props).1 =
        [.describePipeline props.PipelineName,
         .updatePipeline props.PipelineName props.PipelineRoleArn
           (serializeDefinition (resolveConfig props))] ∨
      (on_event sm rt props).1 =
        [.describePipeline props.PipelineName,
         .createPipeline props.PipelineName props.PipelineRoleArn
           (serializeDefinition (resolveConfig props))] := by
    rcases sm with ⟨d, c, u, del⟩
    rcases hrt with h | h <;> subst h <;> cases d
    · exact Or.inr (Or.inl rfl)
    · exact Or.inr (Or.inr rfl)
    · exact Or.inl rfl
    · exact Or.inr (Or.inl rfl)
    · exact Or.inr (Or.inr rfl)
    · exact Or.inl rfl
  rcases htr with h1 | h1 | h1 <;> rw [h1] at hc
  · cases hc with
    | head => cases hb
    | tail _ hc2 => cases hc2
  · cases hc with
    | head => cases hb
    | tail _ hc2 =>
      cases hc2 with
      | head => cases hb; exact ⟨rfl, _build_definition (resolveConfig props), rfl⟩
      | tail _ hc3 => cases hc3
  · cases hc with
    | head => cases hb
    | tail _ hc2 =>
      cases hc2 with
      | head => cases hb; exact ⟨rfl, _build_definition (resolveConfig props), rfl⟩
      | tail _ hc3 => cases hc3

/-- Witness for C5: on a concrete Create request against an absent pipeline,
the create call's body is the serialized built definition and is the
serialization of a document. -/
theorem c5_validation_before_mutation_witness :
    serializeDefinition (resolveConfig demoProps) =
        serializeDefinition (resolveConfig demoProps) ∧
      ∃ j : Json, serializeDefinition (resolveConfig demoProps) = dumps j :=
  c5_validation_before_mutation ⟨.notFound, .ok, .ok, .ok⟩ "Create" demoProps
    (.createPipeline "demo" "role-p" (serializeDefinition (resolveConfig demoProps)))
    (serializeDefinition (resolveConfig demoProps)) (Or.inl rfl)
    (List.mem_cons_of_mem _ (List.mem_cons_self _ _)) rfl

/-- C6: the existence probe answers `false` exactly when the service signals
`ResourceNotFound` (and `true` exactly on success); every other failure of
the describe, create, update, or delete calls is propagated to the caller
rather than absorbed — a describe failure on either the Create or the Update
path, a client error from `create_pipeline` or `update_pipeline` on either
path, and even a `ResourceNotFound` fault raised by `create_pipeline` or
`update_pipeline` (only the probe and delete catch it), as well as any
non-not-found delete failure; `ResourceNotFound` raised during the delete
call is swallowed and the Delete invocation succeeds. -/
theorem c6_error_propagation (d c u del : CallOutcome) (name m : String)
    (props : ResourceProperties) :
    ((_pipeline_exists ⟨d, c, u, del⟩ name).2 = .ok false ↔ d = .notFound) ∧
    ((_pipeline_exists ⟨d, c, u, del⟩ name).2 = .ok true ↔ d = .ok) ∧
    ((_pipeline_exists ⟨.err m, c, u, del⟩ name).2 = .error (.clientError m)) ∧
    ((on_event ⟨.err m, c, u, del⟩ "Create" props).2 = .error (.clientError m)) ∧
    ((on_event ⟨.err m, c, u, del⟩ "Update" props).2 = .error (.clientError m)) ∧
    ((on_event ⟨.notFound, .err m, u, del⟩ "Create" props).2 = .error (.clientError m)) ∧
    ((on_event ⟨.notFound, .err m, u, del⟩ "Update" props).2 = .error (.clientError m)) ∧
    ((on_event ⟨.notFound, .notFound, u, del⟩ "Create" props).2 = .error .resourceNotFound) ∧
    ((on_event ⟨.notFound, .notFound, u, del⟩ "Update" props).2 = .error .resourceNotFound) ∧
    ((on_event ⟨.ok, c, .err m, del⟩ "Create" props).2 = .error (.clientError m)) ∧
    ((on_event ⟨.ok, c, .err m, del⟩ "Update" props).2 = .error (.clientError m)) ∧
    ((on_event ⟨.ok, c, .notFound, del⟩ "Create" props).2 = .error .resourceNotFound) ∧
    ((on_event ⟨.ok, c, .notFound, del⟩ "Update" props).2 = .error .resourceNotFound) ∧
    ((on_event ⟨d, c, u, .err m⟩ "Delete" props).2 = .error (.clientError m)) ∧
    ((_delete ⟨d, c, u, .notFound⟩ name).2 = .ok ()) ∧
    ((on_event ⟨d, c, u, .notFound⟩ "Delete" props).2 =
       .ok (_response ("sagemaker-pipeline-" ++ props.PipelineName)
         [("PipelineName", props.PipelineName)])) := by
  refine ⟨?_, ?_, rfl, rfl, rfl, rfl, rfl, rfl, rfl, rfl, rfl, rfl, rfl, rfl, rfl, rfl⟩ <;>
    cases d <;> simp [_pipeline_exists]

/-- Counterexample to C7 as stated: the handler resolves the configuration
from request properties alone (it reads no environment variable), so with an
environment supplying `env-bucket`/`env-raw/` and request properties
supplying bucket `b`, the claimed environment-override semantics
(`resolveConfigSpec`) and the code's resolution (`resolveConfig`) disagree. -/
theorem c7_env_override_counterexample :
    (resolveConfigSpec demoEnv demoProps).bucketName = "env-bucket" ∧
    (resolveConfigSpec demoEnv demoProps).rawPrefix = "env-raw/" ∧
    (resolveConfig demoProps).bucketName = "b" ∧
    (resolveConfig demoProps).rawPrefix = "raw/" ∧
    resolveConfig demoProps ≠ resolveConfigSpec demoEnv demoProps := by
  refine ⟨rfl, rfl, rfl, rfl, ?_⟩
  decide

/-- C7 as amended: the configuration is resolved from request properties
alone — no environment value is consulted, and request properties are
authoritative for every field; absent optional fields take the defaults
`"raw/"`, `"processed/"`, `"models/"`, `"code/"`, `"ml.m5.large"` and
generator-version `"v1"`, and present optional fields are taken verbatim. -/
theorem c7_config_resolution_amended (n pra jra b pi ti ii en rp pp mp cp it gv : String) :
    resolveConfig ⟨n, pra, jra, b, none, none, none, none, pi, ti, ii, none, en, none⟩ =
      ⟨n, pra, jra, b, "raw/", "processed/", "models/", "code/", pi, ti, ii,
       "ml.m5.large", en, "v1"⟩ ∧
    resolveConfig ⟨n, pra, jra, b, some rp, some pp, some mp, some cp, pi, ti, ii,
        some it, en, some gv⟩ =
      ⟨n, pra, jra, b, rp, pp, mp, cp, pi, ti, ii, it, en, gv⟩ :=
  ⟨rfl, rfl⟩

/-- C8: in the step graph built from every configuration record, every
`Steps.X.<attr>` reference names a step strictly earlier in the step list,
every `Parameters.Y` reference names a declared parameter, and no two steps
share a name. -/
theorem c8_reference_integrity (cfg : Config) :
    referencesOk (_build_definition cfg) = true := rfl

/-- C9: for the example configuration (pipeline `demo`, bucket `b`, default
prefixes, instance `ml.m5.large`, endpoint `demo-ep`), the built graph has
exactly the five steps Preprocess, Train, CreateModel, CreateEndpointConfig,
CreateEndpoint in that order, `Parameters[0]` is `InputDataUri` defaulting to
`s3://b/raw/data.csv`, the fifth step's `EndpointName` is the literal
`demo-ep`, and the Train step's channels read the literal subpaths
`s3://b/processed/train/` and `s3://b/processed/test/`. -/
theorem c9_example_graph_shape :
    stepNames (_build_definition demoCfg) =
      ["Preprocess", "Train", "CreateModel", "CreateEndpointConfig", "CreateEndpoint"] ∧
    paramAt (_build_definition demoCfg) 0 =
      .obj [("Name", .str "InputDataUri"), ("DefaultValue", .str "s3://b/raw/data.csv")] ∧
    getField (stepArgs (stepAt (_build_definition demoCfg) 4)) "EndpointName" =
      some (.str "demo-ep") ∧
    trainChannelUri (_build_definition demoCfg) 0 = .str "s3://b/processed/train/" ∧
    trainChannelUri (_build_definition demoCfg) 1 = .str "s3://b/processed/test/" := by
  refine ⟨?_, ?_, ?_, ?_, ?_⟩ <;> rfl

/-- C10: the `GeneratorVersion` request property has no influence on the
controller's observable behaviour — two requests identical except for it
yield the same built graph, serialized text, hash, external calls, and
response. -/
theorem c10_generator_version_no_influence (sm : SageMakerClient) (rt : String)
    (props : ResourceProperties) (g₁ g₂ : Option String) :
    _build_definition (resolveConfig { props with GeneratorVersion := g₁ }) =
      _build_definition (resolveConfig { props with GeneratorVersion := g₂ }) ∧
    serializeDefinition (resolveConfig { props with GeneratorVersion := g₁ }) =
      serializeDefinition (resolveConfig { props with GeneratorVersion := g₂ }) ∧
    definitionHash (resolveConfig { props with GeneratorVersion := g₁ }) =
      definitionHash (resolveConfig { props with GeneratorVersion := g₂ }) ∧
    on_event sm rt { props with GeneratorVersion := g₁ } =
      on_event sm rt { props with GeneratorVersion := g₂ } :=
  ⟨rfl, rfl, rfl, rfl⟩
